import Mathlib

set_option maxHeartbeats 1000000

/-!
Verification development for the network-monitor desktop shell
(`src/main.js`, `src/preload.js`): runtime locator, backend supervisor,
dependency installer and the renderer event bridge, embedded shallowly
as executable Lean definitions with an explicit event-loop schedule.
-/

namespace NetworkMonitor

/-! ## Runtime locator (`findPythonExecutable`, `src/main.js` lines 117-146)

The locator spawns probe subprocesses (`<command> --version`) and reacts to
three kinds of asynchronous events per probe: a spawn `error`, a chunk of
stdout `data`, a chunk of stderr `data`.  The stdout handler resolves the
promise with the probed command; the spawn-error and stderr handlers call
`tryNext(index + 1)`.  `tryNext` past the end of the candidate list resolves
with `null`.  Promise resolution is first-writer-wins.  We model one probe
instance as its candidate index paired with the list of its still-pending
stream events, and an execution as a schedule of probe-instance positions. -/

/-- The fixed candidate list `const commands = ["python", "python", "py"]`
(`src/main.js` line 119). -/
def pythonCommands : List String := ["python", "python", "py"]

/-- One asynchronous occurrence on a probe subprocess: a stdout `data` event,
a stderr `data` event, or a spawn `error` event. -/
inductive StreamEvent where
  | out
  | errS
  | spawnErr
deriving DecidableEq, Repr

/-- State of the pending `findPythonExecutable` promise: `result` is `none`
while unresolved, `some none` after `resolve(null)`, `some (some i)` after
`resolve(commands[i])` (we record the candidate index); `procs` lists every
spawned probe instance with its candidate index and remaining events. -/
structure LocState where
  result : Option (Option Nat)
  procs : List (Nat × List StreamEvent)
deriving DecidableEq, Repr

/-- Promise resolution: first writer wins, later calls are ignored. -/
def locResolve (r : Option Nat) (s : LocState) : LocState :=
  match s.result with
  | none => { s with result := some r }
  | some _ => s

/-- `tryNext(j)`: past the end of `commands` it resolves `null`; otherwise it
spawns a new probe for candidate `j` (whose future events are
`outcomes[j]`). -/
def locTryNext (outcomes : List (List StreamEvent)) (j : Nat) (s : LocState) :
    LocState :=
  if pythonCommands.length ≤ j then locResolve none s
  else { s with procs := s.procs ++ [(j, outcomes.getD j [])] }

/-- Deliver the next pending event of probe instance `p` (a position in
`procs`); invalid positions or exhausted instances do nothing.  A stdout
event runs `resolve(command)`; stderr and spawn-error events run
`tryNext(index + 1)` — exactly the three handlers registered in
`findPythonExecutable`. -/
def locStep (outcomes : List (List StreamEvent)) (s : LocState) (p : Nat) :
    LocState :=
  match s.procs.get? p with
  | some (j, StreamEvent.out :: rest) =>
      locResolve (some j) { s with procs := s.procs.set p (j, rest) }
  | some (j, StreamEvent.errS :: rest) =>
      locTryNext outcomes (j + 1) { s with procs := s.procs.set p (j, rest) }
  | some (j, StreamEvent.spawnErr :: rest) =>
      locTryNext outcomes (j + 1) { s with procs := s.procs.set p (j, rest) }
  | _ => s

/-- Initial state: `tryNext(0)` on a fresh promise. -/
def locInit (outcomes : List (List StreamEvent)) : LocState :=
  locTryNext outcomes 0 ⟨none, []⟩

/-- Run `findPythonExecutable` under a given event-loop schedule. -/
def locRun (outcomes : List (List StreamEvent)) (sched : List Nat) : LocState :=
  sched.foldl (locStep outcomes) (locInit outcomes)

/-- The value the `findPythonExecutable` promise delivers (command names):
`none` while unresolved, `some none` for `resolve(null)`, `some (some cmd)`
for a resolved candidate. -/
def findPythonExecutable (outcomes : List (List StreamEvent))
    (sched : List Nat) : Option (Option String) :=
  (locRun outcomes sched).result.map (fun r => r.bind fun i => pythonCommands.get? i)

/-- A probe transcript in which some stderr data precedes some stdout data. -/
def stderrBeforeStdout : List StreamEvent → Bool
  | [] => false
  | StreamEvent.errS :: rest => rest.contains StreamEvent.out || stderrBeforeStdout rest
  | _ :: rest => stderrBeforeStdout rest

/-- A probe transcript that never produces stdout data. -/
def NoOut (es : List StreamEvent) : Prop :=
  ∀ e ∈ es, e ≠ StreamEvent.out

instance (es : List StreamEvent) : Decidable (NoOut es) := by
  unfold NoOut; infer_instance

/-- Invariant for the locator run: any resolution names candidate `i`, and
while unresolved only candidates up to `i` have been probed — candidates
before `i` with stdout-free transcripts, candidate `i` still untouched. -/
def LocInv (outcomes : List (List StreamEvent)) (i : Nat) (s : LocState) : Prop :=
  (∀ r, s.result = some r → r = some i) ∧
  (s.result = none → ∀ pe ∈ s.procs,
    pe.1 ≤ i ∧ (pe.1 < i → NoOut pe.2) ∧ (pe.1 = i → pe.2 = outcomes.getD i []))

lemma locInv_init (outcomes : List (List StreamEvent)) (i : Nat)
    (hlt : ∀ j, j < i → NoOut (outcomes.getD j [])) :
    LocInv outcomes i (locInit outcomes) := by
  unfold locInit locTryNext
  have h0 : ¬ (pythonCommands.length ≤ 0) := by decide
  rw [if_neg h0]
  refine ⟨?_, ?_⟩
  · intro r hr; simp at hr
  · intro _ pe hpe
    simp only [List.nil_append, List.mem_singleton] at hpe
    subst hpe
    refine ⟨Nat.zero_le i, fun h => hlt 0 h, fun h => by rw [← h]⟩

lemma locInv_tryNext_noise (outcomes : List (List StreamEvent)) (i : Nat)
    (hlt : ∀ j, j < i → NoOut (outcomes.getD j []))
    (hi : i < pythonCommands.length)
    (hhd : (outcomes.getD i []).head? = some StreamEvent.out)
    (s : LocState) (p j : Nat) (rest : List StreamEvent) (e : StreamEvent)
    (he : e ≠ StreamEvent.out)
    (heq : s.procs.get? p = some (j, e :: rest))
    (hInv : LocInv outcomes i s) :
    LocInv outcomes i
      (locTryNext outcomes (j + 1) { s with procs := s.procs.set p (j, rest) }) := by
  rcases hr : s.result with _ | r
  · -- unresolved: the processed instance must belong to a candidate before `i`
    have hmem : (j, e :: rest) ∈ s.procs := List.get?_mem heq
    have hc := hInv.2 hr _ hmem
    have hji : j < i := by
      rcases Nat.lt_or_eq_of_le hc.1 with h | h
      · exact h
      · exfalso
        have hfull := hc.2.2 h
        rw [← hfull] at hhd
        simp only [List.head?_cons, Option.some.injEq] at hhd
        exact he hhd
    have hlen : ¬ (pythonCommands.length ≤ j + 1) := by omega
    unfold locTryNext
    rw [if_neg hlen]
    refine ⟨?_, ?_⟩
    · intro r' hr'; simp [hr] at hr'
    · intro _ pe hpe
      rcases List.mem_append.1 hpe with hin | hnew
      · rcases List.mem_or_eq_of_mem_set hin with hold | hpe_eq
        · exact hInv.2 hr pe hold
        · subst hpe_eq
          refine ⟨Nat.le_of_lt hji, ?_, ?_⟩
          · intro _ ev hev
            exact hc.2.1 hji ev (List.mem_cons_of_mem _ hev)
          · intro h'; omega
      · simp only [List.mem_singleton] at hnew
        subst hnew
        refine ⟨hji, ?_, ?_⟩
        · intro h'; exact hlt (j + 1) h'
        · intro h'
          have h2 : j + 1 = i := h'
          subst h2; rfl
  · -- already resolved: resolution value is unchanged
    unfold locTryNext
    by_cases hlen : pythonCommands.length ≤ j + 1
    · rw [if_pos hlen]
      refine ⟨?_, ?_⟩
      · intro r' hr'
        apply hInv.1
        simpa [locResolve, hr] using hr'
      · intro hnone; simp [locResolve, hr] at hnone
    · rw [if_neg hlen]
      refine ⟨?_, ?_⟩
      · intro r' hr'
        apply hInv.1
        simpa [hr] using hr'
      · intro hnone; simp [hr] at hnone

lemma locInv_step (outcomes : List (List StreamEvent)) (i : Nat)
    (hlt : ∀ j, j < i → NoOut (outcomes.getD j []))
    (hi : i < pythonCommands.length)
    (hhd : (outcomes.getD i []).head? = some StreamEvent.out)
    (s : LocState) (p : Nat) (hInv : LocInv outcomes i s) :
    LocInv outcomes i (locStep outcomes s p) := by
  unfold locStep
  split
  · -- stdout head: the probe resolves; its candidate must be `i`
    rename_i j rest heq
    have hmem : (j, StreamEvent.out :: rest) ∈ s.procs := List.get?_mem heq
    rcases hr : s.result with _ | r
    · have hc := hInv.2 hr _ hmem
      have hji : j = i := by
        rcases Nat.lt_or_eq_of_le hc.1 with h | h
        · exact absurd rfl (hc.2.1 h StreamEvent.out (List.mem_cons_self _ _))
        · exact h
      refine ⟨?_, ?_⟩
      · intro r' hr'
        simp only [locResolve, hr] at hr'
        simp only [Option.some.injEq] at hr'
        rw [← hr', hji]
      · intro hnone; simp [locResolve, hr] at hnone
    · refine ⟨?_, ?_⟩
      · intro r' hr'
        apply hInv.1
        simpa [locResolve, hr] using hr'
      · intro hnone; simp [locResolve, hr] at hnone
  · rename_i j rest heq
    exact locInv_tryNext_noise outcomes i hlt hi hhd s p j rest _ (by simp) heq hInv
  · rename_i j rest heq
    exact locInv_tryNext_noise outcomes i hlt hi hhd s p j rest _ (by simp) heq hInv
  · exact hInv

lemma locInv_run (outcomes : List (List StreamEvent)) (i : Nat)
    (hlt : ∀ j, j < i → NoOut (outcomes.getD j []))
    (hi : i < pythonCommands.length)
    (hhd : (outcomes.getD i []).head? = some StreamEvent.out)
    (sched : List Nat) :
    LocInv outcomes i (locRun outcomes sched) := by
  have hfold : ∀ (l : List Nat) (s : LocState), LocInv outcomes i s →
      LocInv outcomes i (l.foldl (locStep outcomes) s) := by
    intro l
    induction l with
    | nil => intro s h; exact h
    | cons p ps ih =>
      intro s h
      exact ih _ (locInv_step outcomes i hlt hi hhd s p h)
  exact hfold sched _ (locInv_init outcomes i hlt)

/-- C1 (amended): if no candidate before `i` ever produces stdout data and
candidate `i`'s probe produces stdout data before any stderr data or spawn
error, then under every event-loop schedule `findPythonExecutable` either is
still unresolved or has resolved to candidate `i` — never to a later
candidate and never to `null`. -/
theorem findPythonExecutable_first_clean (outcomes : List (List StreamEvent))
    (i : Nat) (hi : i < pythonCommands.length)
    (hlt : ∀ j, j < i → NoOut (outcomes.getD j []))
    (hhd : (outcomes.getD i []).head? = some StreamEvent.out)
    (sched : List Nat) :
    (locRun outcomes sched).result = none ∨
      ((locRun outcomes sched).result = some (some i) ∧
        findPythonExecutable outcomes sched = some (pythonCommands.get? i)) := by
  have h := locInv_run outcomes i hlt hi hhd sched
  rcases hr : (locRun outcomes sched).result with _ | r
  · exact Or.inl rfl
  · right
    have hri : r = some i := h.1 r hr
    subst hri
    refine ⟨rfl, ?_⟩
    unfold findPythonExecutable
    rw [hr]
    rfl

/-- Probe transcripts for the C1 witness: the first `python` probe fails to
spawn, the second `python` probe prints its version to stdout. -/
def c1WitnessOutcomes : List (List StreamEvent) :=
  [[StreamEvent.spawnErr], [StreamEvent.out], []]

/-- C1 witness: with the first candidate erroring at spawn and the second
producing clean stdout, the schedule delivering both events resolves the
locator to candidate 1 (`"python"`). -/
theorem findPythonExecutable_first_clean_witness :
    (locRun c1WitnessOutcomes [0, 1]).result = none ∨
      ((locRun c1WitnessOutcomes [0, 1]).result = some (some 1) ∧
        findPythonExecutable c1WitnessOutcomes [0, 1] = some (pythonCommands.get? 1)) :=
  findPythonExecutable_first_clean c1WitnessOutcomes 1 (by decide)
    (by
      intro j hj
      have hj0 : j = 0 := Nat.lt_one_iff.mp hj
      subst hj0; decide)
    (by decide) [0, 1]

/-- Probe transcripts refuting C1 as stated: candidate 0 emits stderr noise
and then its stdout version line; candidates 1 and 2 fail to spawn. -/
def c1CexOutcomes : List (List StreamEvent) :=
  [[StreamEvent.errS, StreamEvent.out], [StreamEvent.spawnErr], [StreamEvent.spawnErr]]

/-- C1 counterexample: the claim says `locate()` never resolves to a candidate
whose probe produced stderr output before its stdout appeared.  But when
candidate 0's stderr chunk is processed first (moving on to candidate 1) and
its stdout chunk is processed next, the still-registered stdout handler
resolves the promise to candidate 0 — whose transcript has stderr before
stdout. -/
theorem findPythonExecutable_stderr_cex :
    (locRun c1CexOutcomes [0, 0]).result = some (some 0) ∧
      stderrBeforeStdout (c1CexOutcomes.getD 0 []) = true ∧
      findPythonExecutable c1CexOutcomes [0, 0] = some (some "python") := by
  decide

/-- C10: the probed candidate list is exactly `["python", "python", "py"]`;
the name `"python"` occurs twice and `"python3"` is never probed. -/
theorem pythonCommands_fixed :
    pythonCommands = ["python", "python", "py"] ∧
      pythonCommands.count "python" = 2 ∧
      pythonCommands.contains "python3" = false := by
  decide

/-! ## Backend supervisor (`src/main.js` lines 157-324)

`startPythonBackend` first calls the asynchronous locator and runs its body
in the promise's `.then` continuation; we split it into
`startPythonBackendCall` (the synchronous call, which only leaves a locator
continuation pending) and `startPythonBackendThen` (the continuation body,
lines 158-249, parameterised by the environment's answers: the located
command, the resolved script path, whether `fs.existsSync` finds it, and
whether the `PythonShell` constructor throws).  Spawned subprocesses are
numbered by a counter; `live` holds every spawned, not-yet-exited
subprocess id (a `kill()` signal does not remove a process from `live` —
only its later `close` event does).  Events sent over
`mainWindow.webContents.send` are accumulated in order, native dialogs
separately. -/

/-- A lifecycle event sent to the renderer: `python-output`, `python-error`,
`python-closed` (payload `{code, unexpected}`), `python-stopped`,
`python-restarted`. -/
inductive LifeEvent where
  | output (msg : String)
  | pyError (msg : String)
  | closed (code : Int) (unexpected : Bool)
  | stopped
  | restarted
deriving DecidableEq, Repr

/-- Environment outcomes consumed by one `startPythonBackend` run: the value
the locator promise delivered, the resolved entry-script path, whether the
script exists on disk, whether the `new PythonShell` constructor succeeded
and, if not, the thrown error's message. -/
structure StartEnv where
  found : Option String
  scriptPath : String
  scriptExists : Bool
  spawnOk : Bool
  spawnErrMsg : String
deriving DecidableEq, Repr

/-- Supervisor state: the module-level `pythonProcess` handle, the set of
spawned and not-yet-exited subprocess ids, ids that have been sent a kill
signal, a fresh-id counter, the ordered renderer event log, the native
dialog log, whether `mainWindow` is non-null, the number of pending locator
continuations of `startPythonBackend`, and the pending `setTimeout` delays
scheduled by `restartPythonBackend`. -/
structure SupState where
  pythonProcess : Option Nat
  live : List Nat
  signaled : List Nat
  nextId : Nat
  events : List LifeEvent
  dialogs : List (String × String)
  mainWindow : Bool
  pendingStarts : Nat
  pendingRestarts : List Nat
deriving DecidableEq, Repr

/-- `mainWindow.webContents.send(...)`, guarded by `if (mainWindow)`. -/
def emitEvent (e : LifeEvent) (s : SupState) : SupState :=
  if s.mainWindow then { s with events := s.events ++ [e] } else s

/-- `dialog.showErrorBox(title, content)`. -/
def showErrorBox (title content : String) (s : SupState) : SupState :=
  { s with dialogs := s.dialogs ++ [(title, content)] }

/-- The `python-error` message sent when no runtime is located
(`src/main.js` lines 160-161). -/
def pythonNotFoundMsg : String :=
  "Python not found. Please install Python from https://python.org"

/-- The blocking dialog text shown when no runtime is located
(`src/main.js` lines 166-171). -/
def pythonNotFoundDialogText : String :=
  "Python is required to run this application.\n\n" ++
    "Please install Python from https://python.org and make sure it is added to your PATH.\n\n" ++
    "After installing Python, restart the application."

/-- The synchronous part of `startPythonBackend`: calling it only starts the
locator, leaving the `.then` continuation pending. -/
def startPythonBackendCall (s : SupState) : SupState :=
  { s with pendingStarts := s.pendingStarts + 1 }

/-- The `.then` continuation body of `startPythonBackend`
(`src/main.js` lines 158-249): no runtime → error event plus blocking
dialog, nothing spawned; script missing → one error event, nothing spawned;
otherwise a new subprocess is spawned and unconditionally assigned to the
`pythonProcess` handle (the code performs no check that the supervisor is
idle); a constructor throw emits the caught error's message. -/
def startPythonBackendThen (env : StartEnv) (s : SupState) : SupState :=
  match env.found with
  | none =>
      if s.mainWindow then
        showErrorBox "Python Not Found" pythonNotFoundDialogText
          (emitEvent (LifeEvent.pyError pythonNotFoundMsg) s)
      else s
  | some _ =>
      if env.scriptExists = false then
        emitEvent (LifeEvent.pyError ("Python script not found: " ++ env.scriptPath)) s
      else if env.spawnOk then
        { s with
            pythonProcess := some s.nextId
            live := s.live ++ [s.nextId]
            nextId := s.nextId + 1 }
      else
        emitEvent (LifeEvent.pyError env.spawnErrMsg) s

/-- `stopPythonBackend` (`src/main.js` lines 306-314): a no-op when the
handle is clear; otherwise `kill()` the tracked subprocess (a signal — the
process stays alive until its own exit), clear the handle, and send
`python-stopped`. -/
def stopPythonBackend (s : SupState) : SupState :=
  match s.pythonProcess with
  | none => s
  | some pid =>
      emitEvent LifeEvent.stopped
        { s with pythonProcess := none, signaled := s.signaled ++ [pid] }

/-- The `setTimeout` delay used by `restartPythonBackend`
(`src/main.js` line 323). -/
def restartSettleDelayMs : Nat := 1000

/-- `restartPythonBackend` (`src/main.js` lines 316-324): synchronously run
`stopPythonBackend`, then schedule the restart timer. -/
def restartPythonBackend (s : SupState) : SupState :=
  let s1 := stopPythonBackend s
  { s1 with pendingRestarts := s1.pendingRestarts ++ [restartSettleDelayMs] }

/-- The restart timer callback body (`src/main.js` lines 318-323): call
`startPythonBackend()` (initiating the locator) and then send
`python-restarted`. -/
def restartTimerBody (s : SupState) : SupState :=
  emitEvent LifeEvent.restarted (startPythonBackendCall s)

/-- The `pythonProcess.on("message")` observer (`src/main.js` lines
218-223): forward the line as `python-output`. -/
def onPythonMessage (pid : Nat) (m : String) (s : SupState) : SupState :=
  if pid ∈ s.live then emitEvent (LifeEvent.output m) s else s

/-- The `pythonProcess.on("stderr")` observer (`src/main.js` lines
225-230): forward the chunk as `python-error`. -/
def onPythonStderr (pid : Nat) (m : String) (s : SupState) : SupState :=
  if pid ∈ s.live then emitEvent (LifeEvent.pyError m) s else s

/-- The `pythonProcess.on("close")` observer (`src/main.js` lines 232-242):
the subprocess is gone, the module-level handle is nulled unconditionally,
and `python-closed` with `{code, unexpected: true}` is sent only when
`code !== 0` — a clean exit sends nothing. -/
def onPythonClose (pid : Nat) (code : Int) (s : SupState) : SupState :=
  if pid ∈ s.live then
    let s1 := { s with live := s.live.erase pid, pythonProcess := none }
    if code ≠ 0 then emitEvent (LifeEvent.closed code true) s1 else s1
  else s

/-- An event-loop task of the host process: a `startPythonBackend()` call,
the resolution of its locator promise, a `stopPythonBackend()` call, a
`restartPythonBackend()` call, the firing of a pending restart timer, or an
asynchronous subprocess occurrence (stdout line, stderr chunk, exit). -/
inductive Act where
  | startCall
  | startResolve (env : StartEnv)
  | stopCall
  | restartCall
  | restartFire
  | msg (pid : Nat) (m : String)
  | errData (pid : Nat) (m : String)
  | exitEv (pid : Nat) (code : Int)
deriving DecidableEq, Repr

/-- Run one event-loop task. -/
def supStep (s : SupState) (a : Act) : SupState :=
  match a with
  | Act.startCall => startPythonBackendCall s
  | Act.startResolve env =>
      match s.pendingStarts with
      | 0 => s
      | n + 1 => startPythonBackendThen env { s with pendingStarts := n }
  | Act.stopCall => stopPythonBackend s
  | Act.restartCall => restartPythonBackend s
  | Act.restartFire =>
      match s.pendingRestarts with
      | [] => s
      | _ :: rest => restartTimerBody { s with pendingRestarts := rest }
  | Act.msg pid m => onPythonMessage pid m s
  | Act.errData pid m => onPythonStderr pid m s
  | Act.exitEv pid code => onPythonClose pid code s

/-- Run a sequence of event-loop tasks. -/
def supRun (acts : List Act) (s : SupState) : SupState := acts.foldl supStep s

/-- The host state right after `createWindow()`: window up, no backend. -/
def initState : SupState :=
  { pythonProcess := none, live := [], signaled := [], nextId := 0,
    events := [], dialogs := [], mainWindow := true, pendingStarts := 0,
    pendingRestarts := [] }

/-- An environment in which the locator finds `"python"`, the entry script
exists and the spawn succeeds. -/
def okEnv : StartEnv :=
  { found := some "python", scriptPath := "app.py", scriptExists := true,
    spawnOk := true, spawnErrMsg := "" }

/-! ### Supervisor theorems -/

/-- C2 (amended): `startPythonBackend`'s continuation performs no idle-check
at all — whenever the locator found a command, the script exists and the
spawn succeeds, it spawns a fresh subprocess and overwrites the handle with
it, whatever the previous state; from an idle state (no live subprocess)
exactly one subprocess is live afterwards, but from a running state the
previous subprocess also stays live. -/
theorem startPythonBackendThen_spawns (env : StartEnv) (s : SupState)
    (c : String) (hf : env.found = some c) (hs : env.scriptExists = true)
    (hp : env.spawnOk = true) :
    (startPythonBackendThen env s).live = s.live ++ [s.nextId] ∧
      (startPythonBackendThen env s).pythonProcess = some s.nextId ∧
      (s.live = [] → (startPythonBackendThen env s).live = [s.nextId]) := by
  unfold startPythonBackendThen
  rw [hf, hs, hp]
  refine ⟨rfl, rfl, ?_⟩
  intro h
  simp [h]

/-- C2 witness: a successful start from the idle initial state leaves
exactly subprocess 0 live and tracked by the handle. -/
theorem startPythonBackendThen_spawns_witness :
    (startPythonBackendThen okEnv initState).live = initState.live ++ [initState.nextId] ∧
      (startPythonBackendThen okEnv initState).pythonProcess = some initState.nextId ∧
      (initState.live = [] → (startPythonBackendThen okEnv initState).live = [initState.nextId]) :=
  startPythonBackendThen_spawns okEnv initState "python" rfl rfl rfl

/-- C2 counterexample: the claim says a `start()` while a backend is live
never creates a second live subprocess.  But two successful
`startPythonBackend` runs from the initial state leave both subprocess 0
and subprocess 1 live, the handle tracking only the second. -/
theorem start_twice_two_live :
    (supRun [Act.startCall, Act.startResolve okEnv, Act.startCall,
        Act.startResolve okEnv] initState).live = [0, 1] ∧
      (supRun [Act.startCall, Act.startResolve okEnv, Act.startCall,
        Act.startResolve okEnv] initState).pythonProcess = some 1 := by
  decide

/-- C3 (amended): on subprocess termination the close observer always clears
the handle, but sends a `python-closed` event — carrying the exit code and
`unexpected = true` — only when the exit code is nonzero; a zero exit code
is not reported at all.  In particular an exit with code 137 appends exactly
one closed event `{code := 137, unexpected := true}`. -/
theorem onPythonClose_events (s : SupState) (pid : Nat) (code : Int)
    (hl : pid ∈ s.live) (hw : s.mainWindow = true) :
    (code ≠ 0 →
        (onPythonClose pid code s).events = s.events ++ [LifeEvent.closed code true]) ∧
      (code = 0 → (onPythonClose pid code s).events = s.events) ∧
      (onPythonClose pid code s).pythonProcess = none ∧
      (onPythonClose pid code s).live = s.live.erase pid := by
  unfold onPythonClose
  rw [if_pos hl]
  refine ⟨?_, ?_, ?_, ?_⟩
  · intro h
    rw [if_pos h]
    simp [emitEvent, hw]
  · intro h
    subst h
    simp
  · by_cases h : code ≠ 0 <;> simp [h, emitEvent, hw]
  · by_cases h : code ≠ 0 <;> simp [h, emitEvent, hw]

/-- C3 witness: the live backend spawned by a successful start exits with
code 137, producing exactly one closed event `{137, unexpected := true}`
and clearing the handle. -/
theorem onPythonClose_events_witness :
    (onPythonClose 0 137 (supRun [Act.startCall, Act.startResolve okEnv] initState)).events
        = [LifeEvent.closed 137 true] ∧
      (onPythonClose 0 137 (supRun [Act.startCall, Act.startResolve okEnv] initState)).pythonProcess
        = none := by
  have h := onPythonClose_events
    (supRun [Act.startCall, Act.startResolve okEnv] initState) 0 137
    (by decide) (by decide)
  exact ⟨h.1 (by decide), h.2.2.1⟩

/-- C3 counterexample: the claim says a zero exit code is still reported as
one closed event with `unexpected = false`.  But when the live backend
exits with code 0, the close observer sends nothing: the event log stays
empty even though the process (spawned by the preceding successful start,
hence live) terminated. -/
theorem zero_exit_not_reported :
    (supRun [Act.startCall, Act.startResolve okEnv] initState).live = [0] ∧
      (supRun [Act.startCall, Act.startResolve okEnv, Act.exitEv 0 0] initState).events
        = [] := by
  decide

/-- C5 (amended): `restartPythonBackend` synchronously performs the whole of
`stopPythonBackend` (handle cleared, nothing new spawned or initiated) and
schedules the restart timer with the fixed non-zero settle delay of 1000 ms;
when the timer fires, its body initiates `startPythonBackend` and then emits
`python-restarted`.  The original claim's further guarantee — that no window
exists with two simultaneously live subprocesses — does not hold, because
`stop` only signals the old process and does not wait for its exit. -/
theorem restartPythonBackend_order (s : SupState) :
    ((restartPythonBackend s).live = s.live ∧
      (restartPythonBackend s).nextId = s.nextId ∧
      (restartPythonBackend s).pendingStarts = s.pendingStarts ∧
      (restartPythonBackend s).pythonProcess = none ∧
      (restartPythonBackend s).pendingRestarts
        = s.pendingRestarts ++ [restartSettleDelayMs] ∧
      restartSettleDelayMs ≠ 0) ∧
    (s.mainWindow = true →
      (restartTimerBody s).events = s.events ++ [LifeEvent.restarted] ∧
      (restartTimerBody s).pendingStarts = s.pendingStarts + 1 ∧
      (restartTimerBody s).live = s.live) := by
  constructor
  · unfold restartPythonBackend stopPythonBackend
    rcases hp : s.pythonProcess with _ | pid
    · simp [restartSettleDelayMs, hp]
    · by_cases hw : s.mainWindow <;> simp [emitEvent, hw, restartSettleDelayMs]
  · intro hw
    unfold restartTimerBody startPythonBackendCall
    simp [emitEvent, hw]

/-- C5 witness: from the state after a successful start, the restart call
leaves subprocess 0 live and nothing newly spawned, schedules the 1000 ms
timer, and the timer body appends `python-restarted` after initiating a new
start. -/
theorem restartPythonBackend_order_witness :
    ((restartPythonBackend (supRun [Act.startCall, Act.startResolve okEnv] initState)).live
        = (supRun [Act.startCall, Act.startResolve okEnv] initState).live ∧
      (restartPythonBackend (supRun [Act.startCall, Act.startResolve okEnv] initState)).nextId
        = (supRun [Act.startCall, Act.startResolve okEnv] initState).nextId ∧
      (restartPythonBackend (supRun [Act.startCall, Act.startResolve okEnv] initState)).pendingStarts
        = (supRun [Act.startCall, Act.startResolve okEnv] initState).pendingStarts ∧
      (restartPythonBackend (supRun [Act.startCall, Act.startResolve okEnv] initState)).pythonProcess
        = none ∧
      (restartPythonBackend (supRun [Act.startCall, Act.startResolve okEnv] initState)).pendingRestarts
        = (supRun [Act.startCall, Act.startResolve okEnv] initState).pendingRestarts
            ++ [restartSettleDelayMs] ∧
      restartSettleDelayMs ≠ 0) ∧
    ((supRun [Act.startCall, Act.startResolve okEnv] initState).mainWindow = true →
      (restartTimerBody (supRun [Act.startCall, Act.startResolve okEnv] initState)).events
        = (supRun [Act.startCall, Act.startResolve okEnv] initState).events
            ++ [LifeEvent.restarted] ∧
      (restartTimerBody (supRun [Act.startCall, Act.startResolve okEnv] initState)).pendingStarts
        = (supRun [Act.startCall, Act.startResolve okEnv] initState).pendingStarts + 1 ∧
      (restartTimerBody (supRun [Act.startCall, Act.startResolve okEnv] initState)).live
        = (supRun [Act.startCall, Act.startResolve okEnv] initState).live) :=
  restartPythonBackend_order (supRun [Act.startCall, Act.startResolve okEnv] initState)

/-- C5 counterexample: the claim says no execution window has two backend
subprocesses simultaneously live.  But after start, restart, the timer
firing and the new locator resolving — with the old process, merely
signalled, not yet exited — both subprocess 0 and subprocess 1 are live. -/
theorem restart_two_live :
    (supRun [Act.startCall, Act.startResolve okEnv, Act.restartCall,
        Act.restartFire, Act.startResolve okEnv] initState).live = [0, 1] ∧
      (supRun [Act.startCall, Act.startResolve okEnv, Act.restartCall,
        Act.restartFire, Act.startResolve okEnv] initState).signaled = [0] := by
  decide

/-- C6: when a runtime is located but the resolved entry script does not
exist on disk, the start continuation emits exactly one `python-error`
event, spawns nothing (live set, fresh-id counter and dialogs untouched),
and the supervisor stays idle with the handle clear. -/
theorem script_missing_stays_idle (env : StartEnv) (s : SupState)
    (c : String) (hf : env.found = some c) (hs : env.scriptExists = false)
    (hw : s.mainWindow = true) (hid : s.pythonProcess = none) :
    (startPythonBackendThen env s).events
        = s.events ++ [LifeEvent.pyError ("Python script not found: " ++ env.scriptPath)] ∧
      (startPythonBackendThen env s).pythonProcess = none ∧
      (startPythonBackendThen env s).live = s.live ∧
      (startPythonBackendThen env s).nextId = s.nextId ∧
      (startPythonBackendThen env s).dialogs = s.dialogs := by
  unfold startPythonBackendThen
  rw [hf, hs]
  simp [emitEvent, hw, hid]

/-- C6 witness: with the script reported missing at path `app.py`, starting
from the idle initial state yields exactly one error event and no spawn. -/
theorem script_missing_stays_idle_witness :
    (startPythonBackendThen { okEnv with scriptExists := false } initState).events
        = initState.events
            ++ [LifeEvent.pyError ("Python script not found: "
                  ++ ({ okEnv with scriptExists := false } : StartEnv).scriptPath)] ∧
      (startPythonBackendThen { okEnv with scriptExists := false } initState).pythonProcess = none ∧
      (startPythonBackendThen { okEnv with scriptExists := false } initState).live
        = initState.live ∧
      (startPythonBackendThen { okEnv with scriptExists := false } initState).nextId
        = initState.nextId ∧
      (startPythonBackendThen { okEnv with scriptExists := false } initState).dialogs
        = initState.dialogs :=
  script_missing_stays_idle { okEnv with scriptExists := false } initState
    "python" rfl rfl rfl rfl

/-- C9: `stopPythonBackend` on an idle supervisor (clear handle) is the
identity — no event, no error, no state change; on a live handle it signals
that subprocess, clears the handle, and appends exactly one
`python-stopped` event, touching nothing else. -/
theorem stopPythonBackend_spec (s : SupState) :
    (s.pythonProcess = none → stopPythonBackend s = s) ∧
      (∀ pid, s.pythonProcess = some pid → s.mainWindow = true →
        (stopPythonBackend s).pythonProcess = none ∧
        (stopPythonBackend s).signaled = s.signaled ++ [pid] ∧
        (stopPythonBackend s).events = s.events ++ [LifeEvent.stopped] ∧
        (stopPythonBackend s).live = s.live ∧
        (stopPythonBackend s).dialogs = s.dialogs ∧
        (stopPythonBackend s).nextId = s.nextId) := by
  constructor
  · intro h
    unfold stopPythonBackend
    rw [h]
  · intro pid hp hw
    unfold stopPythonBackend
    rw [hp]
    simp [emitEvent, hw]

/-- C9 witness: stopping the idle initial state changes nothing, and
stopping after a successful start signals subprocess 0, clears the handle
and emits exactly one stopped event. -/
theorem stopPythonBackend_spec_witness :
    stopPythonBackend initState = initState ∧
      ((stopPythonBackend (supRun [Act.startCall, Act.startResolve okEnv] initState)).pythonProcess
          = none ∧
        (stopPythonBackend (supRun [Act.startCall, Act.startResolve okEnv] initState)).signaled
          = (supRun [Act.startCall, Act.startResolve okEnv] initState).signaled ++ [0] ∧
        (stopPythonBackend (supRun [Act.startCall, Act.startResolve okEnv] initState)).events
          = (supRun [Act.startCall, Act.startResolve okEnv] initState).events
              ++ [LifeEvent.stopped] ∧
        (stopPythonBackend (supRun [Act.startCall, Act.startResolve okEnv] initState)).live
          = (supRun [Act.startCall, Act.startResolve okEnv] initState).live ∧
        (stopPythonBackend (supRun [Act.startCall, Act.startResolve okEnv] initState)).dialogs
          = (supRun [Act.startCall, Act.startResolve okEnv] initState).dialogs ∧
        (stopPythonBackend (supRun [Act.startCall, Act.startResolve okEnv] initState)).nextId
          = (supRun [Act.startCall, Act.startResolve okEnv] initState).nextId) :=
  ⟨(stopPythonBackend_spec initState).1 rfl,
    (stopPythonBackend_spec (supRun [Act.startCall, Act.startResolve okEnv] initState)).2
      0 rfl rfl⟩

/-! ### Occurrence-to-event correspondence (C4)

For the lifetime of one backend handle we relate the subprocess's
occurrences (stdout lines, stderr chunks, the final exit) to the lifecycle
events delivered to the renderer. -/

/-- One underlying subprocess occurrence during a handle's lifetime. -/
inductive Occ where
  | msgO (m : String)
  | errO (m : String)
  | exitO (code : Int)
deriving DecidableEq, Repr

/-- The event-loop task delivering an occurrence of subprocess `pid`. -/
def occAct (pid : Nat) : Occ → Act
  | Occ.msgO m => Act.msg pid m
  | Occ.errO m => Act.errData pid m
  | Occ.exitO c => Act.exitEv pid c

/-- What the three stream observers forward for one occurrence: stdout lines
and stderr chunks are always forwarded; an exit is forwarded (as
`closed {code, unexpected: true}`) only when the code is nonzero. -/
def deliverOne : Occ → Option LifeEvent
  | Occ.msgO m => some (LifeEvent.output m)
  | Occ.errO m => some (LifeEvent.pyError m)
  | Occ.exitO c => if c ≠ 0 then some (LifeEvent.closed c true) else none

/-- An occurrence on the subprocess's output streams (not its exit). -/
def isStreamOcc : Occ → Bool
  | Occ.exitO _ => false
  | _ => true

/-- The supervisor state after one successful `startPythonBackend` from the
initial state: subprocess 0 live and tracked. -/
def startedS : SupState :=
  { pythonProcess := some 0, live := [0], signaled := [], nextId := 1,
    events := [], dialogs := [], mainWindow := true, pendingStarts := 0,
    pendingRestarts := [] }

lemma startedS_run : supRun [Act.startCall, Act.startResolve okEnv] initState = startedS := rfl

/-- Stream occurrences of a live subprocess are each appended to the event
log exactly once, in order; nothing else in the state changes. -/
lemma supRun_stream (pid : Nat) :
    ∀ (occs : List Occ), occs.all isStreamOcc = true →
      ∀ s : SupState, pid ∈ s.live → s.mainWindow = true →
        supRun (occs.map (occAct pid)) s
          = { s with events := s.events ++ occs.filterMap deliverOne } := by
  intro occs
  induction occs with
  | nil =>
    intro _ s _ _
    simp [supRun]
  | cons o rest ih =>
    intro hall s hl hw
    rw [List.all_cons, Bool.and_eq_true] at hall
    cases o with
    | msgO m =>
      have hstep : supRun ((Occ.msgO m :: rest).map (occAct pid)) s
          = supRun (rest.map (occAct pid))
              { s with events := s.events ++ [LifeEvent.output m] } := by
        simp [supRun, occAct, supStep, onPythonMessage, hl, emitEvent, hw]
      rw [hstep, ih hall.2 { s with events := s.events ++ [LifeEvent.output m] } hl hw]
      simp [deliverOne]
    | errO m =>
      have hstep : supRun ((Occ.errO m :: rest).map (occAct pid)) s
          = supRun (rest.map (occAct pid))
              { s with events := s.events ++ [LifeEvent.pyError m] } := by
        simp [supRun, occAct, supStep, onPythonStderr, hl, emitEvent, hw]
      rw [hstep, ih hall.2 { s with events := s.events ++ [LifeEvent.pyError m] } hl hw]
      simp [deliverOne]
    | exitO c =>
      simp [isStreamOcc] at hall

/-- C4 (amended): over the lifetime of one backend handle — a successful
start, a sequence of stream occurrences, then the subprocess's exit — the
renderer receives exactly `deliverOne` of each occurrence in order: every
stdout line and stderr chunk is delivered exactly once (no duplication, no
loss), the exit is delivered exactly once when its code is nonzero, and an
exit with code 0 is delivered nowhere (that occurrence is lost). -/
theorem lifecycle_delivery (occs : List Occ) (code : Int)
    (hstream : occs.all isStreamOcc = true) :
    (supRun (Act.startCall :: Act.startResolve okEnv ::
        (occs ++ [Occ.exitO code]).map (occAct 0)) initState).events
      = (occs ++ [Occ.exitO code]).filterMap deliverOne := by
  have key : supRun (Act.startCall :: Act.startResolve okEnv ::
      (occs ++ [Occ.exitO code]).map (occAct 0)) initState
      = supRun ((occs ++ [Occ.exitO code]).map (occAct 0)) startedS := rfl
  rw [key, List.map_append]
  unfold supRun
  rw [List.foldl_append]
  have hstr := supRun_stream 0 occs hstream startedS (by decide) rfl
  unfold supRun at hstr
  rw [hstr]
  simp only [List.map_cons, List.map_nil, List.foldl_cons, List.foldl_nil]
  show (onPythonClose 0 code _).events = _
  by_cases hc : code ≠ 0
  · simp [onPythonClose, emitEvent, startedS, List.filterMap_append, deliverOne, hc]
  · simp only [ne_eq, Decidable.not_not] at hc
    simp [onPythonClose, emitEvent, startedS, List.filterMap_append, deliverOne, hc]

/-- C4 witness: a handle whose subprocess prints one line, writes one stderr
chunk and exits with code 3 delivers exactly three events, in order. -/
theorem lifecycle_delivery_witness :
    (supRun (Act.startCall :: Act.startResolve okEnv ::
        ([Occ.msgO "hello", Occ.errO "warn"] ++ [Occ.exitO 3]).map (occAct 0)) initState).events
      = [LifeEvent.output "hello", LifeEvent.pyError "warn", LifeEvent.closed 3 true] := by
  have h := lifecycle_delivery [Occ.msgO "hello", Occ.errO "warn"] 3 (by decide)
  exact h

/-- C4 counterexample: the claim says no subprocess occurrence is lost.  But
a handle whose live subprocess produces two occurrences — one stdout line
and a termination with exit code 0 — delivers only one event: the clean
exit is never delivered to the presentation layer. -/
theorem clean_exit_occurrence_lost :
    (supRun [Act.startCall, Act.startResolve okEnv, Act.msg 0 "ready"] initState).live = [0] ∧
      (supRun [Act.startCall, Act.startResolve okEnv, Act.msg 0 "ready",
        Act.exitEv 0 0] initState).events = [LifeEvent.output "ready"] := by
  decide

/-! ## Dependency installer (`installPythonDependencies`, `src/main.js`
lines 252-304)

The installer re-runs the locator; with no runtime it shows a blocking
error box and spawns nothing.  Otherwise it spawns one
`<python> -m pip install -r requirements.txt` subprocess, accumulates all
stdout chunks into `output` and all stderr chunks into `errorOutput` via
string concatenation, and on close shows either a fixed success dialog
(exit 0) or an error box embedding both accumulated texts. -/

/-- A native dialog shown by the installer: an informational message box or
a blocking error box. -/
inductive DialogBox where
  | infoBox (title message detail : String)
  | errBox (title content : String)
deriving DecidableEq, Repr

/-- `installPythonDependencies`, as a function of the locator's answer, the
install subprocess's stdout chunks, stderr chunks and exit code.  Returns
the dialogs shown and the number of install subprocesses spawned. -/
def installPythonDependencies (found : Option String)
    (outChunks errChunks : List String) (code : Int) : List DialogBox × Nat :=
  match found with
  | none =>
      ([DialogBox.errBox "Python Not Found"
          "Cannot install dependencies: Python not found."], 0)
  | some _ =>
      let output := String.join outChunks
      let errorOutput := String.join errChunks
      if code = 0 then
        ([DialogBox.infoBox "Dependencies Installed"
            "Python dependencies installed successfully!"
            "The required Python packages have been installed. You may need to restart the application."], 1)
      else
        ([DialogBox.errBox "Installation Failed"
            ("Failed to install dependencies.\n\nOutput: " ++ output
              ++ "\nErrors: " ++ errorOutput)], 1)

/-- C7: with no runtime located the installer reports "Python not found" and
spawns no subprocess; on exit code 0 it shows the fixed success dialog,
whose text is independent of any captured output or error text; on any
nonzero exit code it shows one failure error box whose content embeds the
accumulated stdout and stderr texts verbatim. -/
theorem installPythonDependencies_reports (found : Option String)
    (outChunks errChunks : List String) (code : Int) (c : String) :
    (found = none →
        installPythonDependencies found outChunks errChunks code
          = ([DialogBox.errBox "Python Not Found"
                "Cannot install dependencies: Python not found."], 0)) ∧
      (found = some c → code = 0 →
        installPythonDependencies found outChunks errChunks code
          = ([DialogBox.infoBox "Dependencies Installed"
                "Python dependencies installed successfully!"
                "The required Python packages have been installed. You may need to restart the application."], 1)) ∧
      (found = some c → code ≠ 0 →
        installPythonDependencies found outChunks errChunks code
          = ([DialogBox.errBox "Installation Failed"
                ("Failed to install dependencies.\n\nOutput: " ++ String.join outChunks
                  ++ "\nErrors: " ++ String.join errChunks)], 1)) := by
  refine ⟨?_, ?_, ?_⟩
  · intro h
    rw [h, installPythonDependencies]
  · intro h hc
    rw [h, installPythonDependencies]
    simp [hc]
  · intro h hc
    rw [h, installPythonDependencies]
    simp [hc]

/-- C7 witness: a found runtime whose pip invocation prints `ok` on stdout
and `boom` on stderr and exits 1 produces one failure error box embedding
both texts verbatim; the success and not-found branches at their concrete
inputs likewise. -/
theorem installPythonDependencies_reports_witness :
    installPythonDependencies none ["x"] ["y"] 1
        = ([DialogBox.errBox "Python Not Found"
              "Cannot install dependencies: Python not found."], 0) ∧
      installPythonDependencies (some "python") ["ok"] ["boom"] 0
        = ([DialogBox.infoBox "Dependencies Installed"
              "Python dependencies installed successfully!"
              "The required Python packages have been installed. You may need to restart the application."], 1) ∧
      installPythonDependencies (some "python") ["ok"] ["boom"] 1
        = ([DialogBox.errBox "Installation Failed"
              "Failed to install dependencies.\n\nOutput: ok\nErrors: boom"], 1) := by
  refine ⟨?_, ?_, ?_⟩
  · exact (installPythonDependencies_reports none ["x"] ["y"] 1 "python").1 rfl
  · exact (installPythonDependencies_reports (some "python") ["ok"] ["boom"] 0 "python").2.1
      rfl rfl
  · have h := (installPythonDependencies_reports (some "python") ["ok"] ["boom"] 1 "python").2.2
      rfl (by decide)
    exact h.trans (by decide)

/-! ## Event bridge (`src/preload.js` and the `ipcMain.handle`
registrations, `src/main.js` lines 327-338)

With `contextIsolation` on and `nodeIntegration` off, the renderer reaches
the host only through the `electronAPI` object exposed by the preload
script: five channel subscriptions, two `invoke` operations, and a
listener-cleanup operation taking a channel name. -/

/-- One capability exposed on the `electronAPI` bridge object. -/
inductive BridgeOp where
  | subscribe (apiName : String) (channel : String)
  | invoke (apiName : String) (channel : String)
  | removeAll (apiName : String)
deriving DecidableEq, Repr

/-- The full `electronAPI` object of `src/preload.js` lines 5-19. -/
def electronAPI : List BridgeOp :=
  [BridgeOp.subscribe "onPythonOutput" "python-output",
   BridgeOp.subscribe "onPythonError" "python-error",
   BridgeOp.subscribe "onPythonClosed" "python-closed",
   BridgeOp.subscribe "onPythonStopped" "python-stopped",
   BridgeOp.subscribe "onPythonRestarted" "python-restarted",
   BridgeOp.invoke "getAppVersion" "get-app-version",
   BridgeOp.invoke "showMessageBox" "show-message-box",
   BridgeOp.removeAll "removeAllListeners"]

/-- The channels with `ipcMain.handle` registrations in the host
(`src/main.js` lines 327-338).  `install-dependencies` has a handler but no
bridge exposure, so the renderer cannot reach it. -/
def ipcMainHandlers : List String :=
  ["get-app-version", "show-message-box", "install-dependencies"]

/-- The lifecycle channels the bridge lets the renderer subscribe to. -/
def subscribeChannels : List String :=
  electronAPI.filterMap fun op =>
    match op with
    | BridgeOp.subscribe _ c => some c
    | _ => none

/-- The request/response channels the bridge lets the renderer invoke. -/
def invokeChannels : List String :=
  electronAPI.filterMap fun op =>
    match op with
    | BridgeOp.invoke _ c => some c
    | _ => none

/-- Whether the bridge exposes the channel-scoped listener cleanup. -/
def hasRemoveAll : Bool :=
  electronAPI.any fun op =>
    match op with
    | BridgeOp.removeAll _ => true
    | _ => false

/-- C8: the capability set reachable through the bridge is exactly the five
lifecycle subscriptions (`python-output`, `python-error`, `python-closed`,
`python-stopped`, `python-restarted`), the two invokable request/response
channels (`get-app-version`, `show-message-box`) — each of which the host
indeed handles — and the channel-scoped listener cleanup; the bridge
exposes exactly these eight members and nothing else. -/
theorem bridge_capability_set :
    subscribeChannels
        = ["python-output", "python-error", "python-closed",
           "python-stopped", "python-restarted"] ∧
      invokeChannels = ["get-app-version", "show-message-box"] ∧
      invokeChannels.all (fun ch => ipcMainHandlers.contains ch) = true ∧
      hasRemoveAll = true ∧
      electronAPI.length = 8 := by
  decide

end NetworkMonitor
